import Mathlib

/-!
Verification of the 3dosm OSM-building layer against its design specification.

The development shallowly embeds the JavaScript sources:
* `BuildingShape.js` (altitude and heat-map colour policy),
* `OSMBuildingLayer.js` (source dispatch, Overpass query construction,
  sectorization, feature caching, ajax response handling),
* `GeoJSONParserOSM.js` / `GeoJSONParserTriangulationOSM.js`
  (per-geometry renderable construction and the CRS guard).

JavaScript numbers are modelled as rationals (`ℚ`); JavaScript's dynamic
values are modelled by the inductive `JSVal` below.  Fallible JavaScript
code (property access on `null`/`undefined` throws a `TypeError`) is
modelled with `Except String`.
-/

set_option allowUnsafeReducibility true in
attribute [semireducible] Rat.mul Rat.div Rat.add Rat.sub Rat.neg Rat.inv Rat.normalize

/-- A JavaScript value, as far as the embedded code needs it:
`undefined`, `null`, `NaN`, booleans, (finite, non-NaN) numbers,
strings, arrays and plain objects (association lists of own fields).
String-to-number coercion (e.g. `"4" * 3`) is not modelled: tag values
are taken as numbers, as the specification does. -/
inductive JSVal : Type where
  | undefined : JSVal
  | null : JSVal
  | nan : JSVal
  | bool (b : Bool) : JSVal
  | num (q : ℚ) : JSVal
  | str (s : String) : JSVal
  | arr (elems : List JSVal) : JSVal
  | obj (fields : List (String × JSVal)) : JSVal

/-- JavaScript truthiness: `undefined`, `null`, `NaN`, `false`, `0` and
`""` are falsy; every object and array (even empty) is truthy. -/
def truthy : JSVal → Bool
  | .undefined => false
  | .null => false
  | .nan => false
  | .bool b => b
  | .num q => if q = 0 then false else true
  | .str s => if s = "" then false else true
  | .arr _ => true
  | .obj _ => true

/-- Lookup of an own field in an object's field list (first binding wins,
matching the uniqueness of keys in a JavaScript object literal);
a missing field reads as `undefined`. -/
def lookupField (fields : List (String × JSVal)) (k : String) : JSVal :=
  match fields.lookup k with
  | some v => v
  | none => .undefined

/-- Total property access `v.k`: on an object it reads the field, on any
other non-`undefined`/non-`null` value it yields `undefined` (primitives
are boxed in JavaScript and have no such own field).  Used where the
source has already guarded the receiver, and in the specification's
reference policy. -/
def jsGetT (v : JSVal) (k : String) : JSVal :=
  match v with
  | .obj fields => lookupField fields k
  | _ => .undefined

/-- Property access `v.k` as it can fail: reading a property of
`undefined` or `null` throws a `TypeError`. -/
def jsGet (v : JSVal) (k : String) : Except String JSVal :=
  match v with
  | .undefined => .error "TypeError"
  | .null => .error "TypeError"
  | _ => .ok (jsGetT v k)

/-- Total computed-index access `v[k]` for a string key value; other key
values are not modelled (the embedded code only indexes with the
configured altitude-property name, a string). -/
def jsIndexT (v : JSVal) (k : JSVal) : JSVal :=
  match v, k with
  | .obj fields, .str s => lookupField fields s
  | _, _ => .undefined

/-- Computed-index access `v[k]` as it can fail on an `undefined`/`null`
receiver. -/
def jsIndex (v : JSVal) (k : JSVal) : Except String JSVal :=
  match v with
  | .undefined => .error "TypeError"
  | .null => .error "TypeError"
  | _ => .ok (jsIndexT v k)

/-- JavaScript `v * 3` on the modelled values: numeric on numbers,
`NaN` otherwise (string coercion is outside the model). -/
def jsMul3 : JSVal → JSVal
  | .num q => .num (q * 3)
  | _ => .nan

/-- A colour as used by `WorldWind.Color`: red, green, blue, alpha. -/
structure JSColor : Type where
  red : ℚ
  green : ℚ
  blue : ℚ
  alpha : ℚ
deriving DecidableEq, Repr

/-- The `heatmap` part of a shape configuration. -/
structure HeatmapConfig : Type where
  enabled : Bool
  thresholds : List ℚ
deriving DecidableEq, Repr

/-- The `altitude` part of a shape configuration: a `type` tag (the
source compares it against the strings `"number"`, `"osm"` and
`"property"`) and a `value` (a number for type `"number"`, a property
name for type `"property"`). -/
structure AltitudeConfig : Type where
  type : String
  value : JSVal

/-- The shape configuration returned by `shapeConfigurationCallback`,
restricted to the fields `BuildingShape` reads: `extrude`, the optional
`altitude` object (`none` models `null`), the `heatmap` object and
`attributes.interiorColor`. -/
structure Configuration : Type where
  extrude : Bool
  altitude : Option AltitudeConfig
  heatmap : HeatmapConfig
  interiorColor : JSColor

/-- The `"osm"` branch of `BuildingShape.prototype.setAltitude`
(BuildingShape.js lines 128-138).  The first two steps guard the
receiver (`this._properties && this._properties.height`), the third
step reads `this._properties.tags` unguarded, which throws when the
properties are `undefined`/`null`. -/
def osmAltitude (props : JSVal) : Except String JSVal :=
  if truthy props && truthy (jsGetT props "height") then
    .ok (jsGetT props "height")
  else if truthy props && truthy (jsGetT props "building:levels") then
    .ok (jsMul3 (jsGetT props "building:levels"))
  else
    (jsGet props "tags").map (fun tags =>
      if truthy tags && truthy (jsGetT tags "height") then
        jsGetT tags "height"
      else if truthy tags && truthy (jsGetT tags "building:levels") then
        jsMul3 (jsGetT tags "building:levels")
      else .num 15)

/-- `BuildingShape.prototype.setAltitude` (BuildingShape.js lines
119-154), returning the altitude stored into `this._altitude`, or the
thrown `TypeError`.  The source's flat `else if` chain on
`configuration.extrude && configuration.altitude &&
configuration.altitude.type == t` is rendered by first matching the
`altitude` object. -/
def setAltitude (config : Configuration) (props : JSVal) : Except String JSVal :=
  match config.altitude with
  | some alt =>
      if config.extrude && (alt.type == "number") then
        .ok (if truthy alt.value then alt.value else .num 15)
      else if config.extrude && (alt.type == "osm") then
        osmAltitude props
      else if config.extrude && (alt.type == "property") then
        if truthy alt.value then
          (jsIndex props alt.value).map (fun pv => if truthy pv then pv else .num 15)
        else .ok (.num 15)
      else if config.extrude then .ok (.num 15)
      else .ok (.num 0)
  | none => if config.extrude then .ok (.num 15) else .ok (.num 0)

/-- The specification's fallback chain for altitude type `"osm"`
(spec §4.1, §8): the first truthy value among `properties.height`,
`properties["building:levels"] * 3`, `properties.tags.height`,
`properties.tags["building:levels"] * 3`, and `15` when none is
truthy.  All lookups are the total ones: a missing step reads as
`undefined`, which is falsy. -/
def resolveOsmAltitude (properties : JSVal) : JSVal :=
  if truthy (jsGetT properties "height") then
    jsGetT properties "height"
  else if truthy (jsGetT properties "building:levels") then
    jsMul3 (jsGetT properties "building:levels")
  else if truthy (jsGetT (jsGetT properties "tags") "height") then
    jsGetT (jsGetT properties "tags") "height"
  else if truthy (jsGetT (jsGetT properties "tags") "building:levels") then
    jsMul3 (jsGetT (jsGetT properties "tags") "building:levels")
  else .num 15

/-- The altitude policy exactly as the specification words it
(spec §4.1 `resolveAltitude`): `0` when `extrude` is falsy, `15` when
no altitude configuration is present, and otherwise the stated chain
for the three altitude types of the data model (§3).  The catch-all for
a `type` tag outside the data model's enum is unreachable in the
claims' scope and mirrors the source's default of `15`. -/
def resolveAltitude (config : Configuration) (properties : JSVal) : JSVal :=
  if config.extrude = false then .num 0
  else
    match config.altitude with
    | none => .num 15
    | some alt =>
        match alt.type with
        | "number" => if truthy alt.value then alt.value else .num 15
        | "osm" => resolveOsmAltitude properties
        | "property" =>
            if truthy alt.value && truthy (jsIndexT properties alt.value) then
              jsIndexT properties alt.value
            else .num 15
        | _ => .num 15

/-- `BuildingShape.prototype.setColor` (BuildingShape.js lines 90-108),
returning the colour stored into `configuration.attributes.interiorColor`
(and into `this._color`).  The branch on the base red channel is taken
once, before the loop; inside the loop the current colour is rebuilt
whenever the altitude falls into the bracket
`thresholds[i] < altitude <= thresholds[i+1]`. -/
def setColor (altitude : ℚ) (config : Configuration) : JSColor :=
  let thresholds := config.heatmap.thresholds
  let n := thresholds.length
  let heat : ℚ := (1 / 2) / ((n : ℚ) - 2)
  if config.interiorColor.red < 1 / 2 then
    (List.range (n - 1)).foldl
      (fun c i =>
        if thresholds.getD i 0 < altitude ∧ altitude ≤ thresholds.getD (i + 1) 0 then
          ⟨c.red + heat * (i : ℚ), c.green, c.blue, c.alpha⟩
        else c)
      config.interiorColor
  else
    (List.range (n - 1)).foldl
      (fun c i =>
        if thresholds.getD i 0 < altitude ∧ altitude ≤ thresholds.getD (i + 1) 0 then
          ⟨c.red - heat * ((n : ℚ) - (i : ℚ)), c.green, c.blue, c.alpha⟩
        else c)
      config.interiorColor

/-! ### Sectorization (`OSMBuildingLayer.prototype.createSectors`) -/

/-- A bounding box `[x1, y1, x2, y2]` (longitudes then latitudes). -/
structure BoundingBoxQ : Type where
  x1 : ℚ
  y1 : ℚ
  x2 : ℚ
  y2 : ℚ
deriving DecidableEq, Repr

/-- A `Sector(y1, y2, x1, x2)` as constructed by `createSectors`. -/
structure SectorQ : Type where
  minLatitude : ℚ
  maxLatitude : ℚ
  minLongitude : ℚ
  maxLongitude : ℚ
deriving DecidableEq, Repr

/-- JavaScript `q.toFixed(5)` read back as a number: rounding to five
decimal places.  (`toFixed` rounds halves away from zero while `round`
rounds halves up; no value in this development sits on a half.) -/
def toFixed5 (q : ℚ) : ℚ := ((round (q * 100000) : ℤ) : ℚ) / 100000

/-- The fixed sector size of `createSectors` (0.01 degrees). -/
def sectorSize : ℚ := 1 / 100

/-- `Math.ceil(((x2-x1).toFixed(5)) / sectorSize)`, clamped to zero for
the loop bound (a non-positive count runs the loop zero times). -/
def sectorsOnXCount (bb : BoundingBoxQ) : ℕ :=
  (⌈toFixed5 (bb.x2 - bb.x1) / sectorSize⌉).toNat

/-- `Math.ceil(((y2-y1).toFixed(5)) / sectorSize)`, clamped to zero. -/
def sectorsOnYCount (bb : BoundingBoxQ) : ℕ :=
  (⌈toFixed5 (bb.y2 - bb.y1) / sectorSize⌉).toNat

/-- The loop body of `createSectors` (OSMBuildingLayer.js lines 81-95)
for row `indexY` and column `indexX`: edges advance by `sectorSize`,
every edge goes through `toFixed(5)`, and the last column/row takes the
box's own (rounded) far edge. -/
def sectorAt (bb : BoundingBoxQ) (indexY indexX : ℕ) : SectorQ :=
  { minLatitude := toFixed5 (bb.y1 + sectorSize * indexY)
    maxLatitude := if indexY + 1 = sectorsOnYCount bb then toFixed5 bb.y2
      else toFixed5 (bb.y1 + sectorSize * (indexY + 1))
    minLongitude := toFixed5 (bb.x1 + sectorSize * indexX)
    maxLongitude := if indexX + 1 = sectorsOnXCount bb then toFixed5 bb.x2
      else toFixed5 (bb.x1 + sectorSize * (indexX + 1)) }

/-- `OSMBuildingLayer.prototype.createSectors` (lines 72-100): the
row-major double loop, Y outer and X inner. -/
def createSectors (bb : BoundingBoxQ) : List SectorQ :=
  (List.range (sectorsOnYCount bb)).flatMap (fun indexY =>
    (List.range (sectorsOnXCount bb)).map (fun indexX => sectorAt bb indexY indexX))

/-- Membership of a point in a (closed) sector. -/
def inSector (s : SectorQ) (p : ℚ × ℚ) : Prop :=
  s.minLongitude ≤ p.1 ∧ p.1 ≤ s.maxLongitude ∧ s.minLatitude ≤ p.2 ∧ p.2 ≤ s.maxLatitude

instance (s : SectorQ) (p : ℚ × ℚ) : Decidable (inSector s p) := by
  unfold inSector; infer_instance

/-- Membership of a point in a (closed) bounding box. -/
def inBox (bb : BoundingBoxQ) (p : ℚ × ℚ) : Prop :=
  bb.x1 ≤ p.1 ∧ p.1 ≤ bb.x2 ∧ bb.y1 ≤ p.2 ∧ p.2 ≤ bb.y2

instance (bb : BoundingBoxQ) (p : ℚ × ℚ) : Decidable (inBox bb p) := by
  unfold inBox; infer_instance

/-- Membership of a point in a sector's interior. -/
def interiorOf (s : SectorQ) (p : ℚ × ℚ) : Prop :=
  s.minLongitude < p.1 ∧ p.1 < s.maxLongitude ∧ s.minLatitude < p.2 ∧ p.2 < s.maxLatitude

/-- Two sectors do not overlap: no point is interior to both.
(Adjacent sectors share their boundary edge.) -/
def sectorsDisjoint (s t : SectorQ) : Prop :=
  ∀ p : ℚ × ℚ, ¬(interiorOf s p ∧ interiorOf t p)

/-- The sectors of a box pairwise do not overlap. -/
def noOverlap (bb : BoundingBoxQ) : Prop :=
  (createSectors bb).Pairwise sectorsDisjoint

/-- The union of the sectors reconstructs the box exactly. -/
def coversExactly (bb : BoundingBoxQ) : Prop :=
  ∀ p : ℚ × ℚ, (∃ s ∈ createSectors bb, inSector s p) ↔ inBox bb p

/-- A coordinate with at most five decimal places: `toFixed(5)` keeps it. -/
def onGrid (q : ℚ) : Prop := toFixed5 q = q

instance (q : ℚ) : Decidable (onGrid q) := by unfold onGrid; infer_instance

/-! ### Source dispatch and the Overpass query
(`OSMBuildingLayer.prototype.add` / `addByBoundingBox` / `addByGeoJSONFile`) -/

/-- JavaScript number-to-string conversion, restricted to rationals with
a finite decimal expansion of at most 20 digits (every coordinate in
scope): minimal-length decimal digits, as `Number.prototype.toString`
produces.  (Exponential notation for extreme magnitudes is outside the
model.) -/
def decDigits (q : ℚ) : Option ℕ :=
  (List.range 21).find? (fun k => (q * 10 ^ k).den == 1)

/-- Left-pad a digit string with zeros to length `k`. -/
def padZeros (s : String) (k : ℕ) : String :=
  String.mk (List.replicate (k - s.length) '0') ++ s

/-- Decimal rendering of a non-negative rational. -/
def nonnegNum2str (q : ℚ) : String :=
  match decDigits q with
  | some 0 => toString q.num
  | some (k + 1) =>
      let m := (q * 10 ^ (k + 1)).num.toNat
      toString (m / 10 ^ (k + 1)) ++ "." ++ padZeros (toString (m % 10 ^ (k + 1))) (k + 1)
  | none => toString q.num ++ "/" ++ toString q.den

/-- JavaScript number-to-string conversion (sign then digits). -/
def num2str (q : ℚ) : String :=
  if q < 0 then "-" ++ nonnegNum2str (-q) else nonnegNum2str q

/-- What the synchronous part of `add()` observably does: issues a fetch
(with its URL and request payload) or throws an `ArgumentError`-kind
failure with a message. -/
inductive LayerEvent : Type where
  | fetch (url : String) (payload : String)
  | err (msg : String)
deriving DecidableEq, Repr

/-- The layer's `_source` member: a `type` tag, optional `coordinates`
(an array: `none` models an absent field) and an optional `path`. -/
structure SourceDescriptor : Type where
  type : String
  coordinates : Option (List ℚ)
  path : Option String

/-- Truthiness of the `path` field (`undefined` and `""` are falsy). -/
def pathTruthy : Option String → Bool
  | some s => !(s == "")
  | none => false

def overpassUrl : String := "http://overpass-api.de/api/interpreter"

/-- `this._type`, set in the `OSMBuildingLayer` constructor. -/
def overpassType : String := "way"

/-- `this._tag`, set in the `OSMBuildingLayer` constructor. -/
def overpassTag : String := "building"

/-- The Overpass payload built by `addByBoundingBox` (lines 239-241):
latitude indices (1, 3) before longitude indices (0, 2). -/
def overpassQueryData (bb : List ℚ) : String :=
  "[out:json][timeout:25];" ++
    ("(" ++ overpassType ++ "[" ++ overpassTag ++ "](" ++ num2str (bb.getD 1 0) ++ "," ++
      num2str (bb.getD 0 0) ++ "," ++ num2str (bb.getD 3 0) ++ "," ++ num2str (bb.getD 2 0) ++
      "); ") ++
    ("relation[" ++ overpassTag ++ "](" ++ num2str (bb.getD 1 0) ++ "," ++ num2str (bb.getD 0 0) ++
      "," ++ num2str (bb.getD 3 0) ++ "," ++ num2str (bb.getD 2 0) ++
      ");); out body; >; out skel qt;")

/-- The synchronous part of `addByBoundingBox` (lines 227-246): the
four-coordinate check throws before any fetch; otherwise exactly one
POST is issued.  (`coordinates = none` would throw a `TypeError` on
`.length`; `add` guards it.) -/
def addByBoundingBoxEvents (src : SourceDescriptor) : List LayerEvent :=
  match src.coordinates with
  | none => [.err "TypeError"]
  | some coords =>
      if coords.length ≠ 4 then [.err "The bounding box is invalid."]
      else [.fetch overpassUrl (overpassQueryData coords)]

/-- The synchronous part of `addByGeoJSONFile` (lines 296-306): one GET
of the configured path (no request payload). -/
def addByGeoJSONFileEvents (src : SourceDescriptor) : List LayerEvent :=
  [.fetch (match src.path with | some p => p | none => "") ""]

/-- `OSMBuildingLayer.prototype.add` (lines 166-185). -/
def addEvents (src : SourceDescriptor) : List LayerEvent :=
  if src.type == "boundingBox" && src.coordinates.isSome then addByBoundingBoxEvents src
  else if src.type == "GeoJSONFile" && pathTruthy src.path then addByGeoJSONFileEvents src
  else [.err "The source definition of the layer is wrong."]

/-- A valid `boundingBox` descriptor: right tag and exactly four
coordinates. -/
def isValidBoundingBoxSource (src : SourceDescriptor) : Bool :=
  src.type == "boundingBox" &&
    (match src.coordinates with
     | some c => c.length == 4
     | none => false)

/-- A valid `GeoJSONFile` descriptor: right tag and a (truthy) path. -/
def isValidGeoJSONFileSource (src : SourceDescriptor) : Bool :=
  src.type == "GeoJSONFile" && pathTruthy src.path

/-! ### Caching and ajax response handling -/

/-- One recorded `putEntry` call: key, stored value, caller-supplied
weight. -/
structure CacheEntry : Type where
  key : String
  value : JSVal
  weight : ℕ

/-- The WebWorldWind `MemoryCache` collaborator, modelled at its
interface: construction parameters (capacity and low-water mark) and
the sequence of insertions.  Its internal eviction policy belongs to
the external library and is out of scope (spec §1). -/
structure MemoryCacheModel : Type where
  capacity : ℕ
  lowWater : ℕ
  entries : List CacheEntry

/-- `MemoryCache.putEntry(key, value, weight)`, recorded in call
order. -/
def MemoryCacheModel.putEntry (c : MemoryCacheModel) (k : String) (v : JSVal) (w : ℕ) :
    MemoryCacheModel :=
  { c with entries := c.entries ++ [⟨k, v, w⟩] }

/-- A GeoJSON feature as `osmtogeojson` produces it: an id, a geometry
object and a properties object. -/
structure GeoFeature : Type where
  id : String
  geometry : List (String × JSVal)
  properties : List (String × JSVal)

/-- A GeoJSON feature collection. -/
structure FeatureCollection : Type where
  features : List GeoFeature

/-- `Object.keys(o).length`: the number of own fields (keys of a
JavaScript object are unique; the first binding wins). -/
def countOwnFields (o : List (String × JSVal)) : ℕ :=
  (o.map Prod.fst).dedup.length

def GeoFeature.toJS (f : GeoFeature) : JSVal :=
  .obj [("type", .str "Feature"), ("id", .str f.id),
        ("properties", .obj f.properties), ("geometry", .obj f.geometry)]

def FeatureCollection.toJS (fc : FeatureCollection) : JSVal :=
  .obj [("type", .str "FeatureCollection"), ("features", .arr (fc.features.map GeoFeature.toJS))]

/-- The mutable state an `OSMBuildingLayer` instance owns across a
request: the two caches and the renderable layers attached to the
`WorldWindow` (each recorded with the GeoJSON payload it was built
from). -/
structure OSMLayerState : Type where
  geometryCache : MemoryCacheModel
  propertiesCache : MemoryCacheModel
  renderableLayers : List JSVal

/-- The constructor state (OSMBuildingLayer.js lines 46-53):
`new MemoryCache(30000, 24000)` for geometry and
`new MemoryCache(50000, 40000)` for properties. -/
def initialLayerState : OSMLayerState :=
  { geometryCache := ⟨30000, 24000, []⟩
    propertiesCache := ⟨50000, 40000, []⟩
    renderableLayers := [] }

/-- One iteration of `OSMBuildingLayer.prototype.cache` (lines 119-122):
geometry and properties are stored under the feature's id, each
weighted by its own-field count. -/
def cacheFeature (st : OSMLayerState) (f : GeoFeature) : OSMLayerState :=
  { st with
    geometryCache := st.geometryCache.putEntry f.id (.obj f.geometry) (countOwnFields f.geometry)
    propertiesCache :=
      st.propertiesCache.putEntry f.id (.obj f.properties) (countOwnFields f.properties) }

/-- `OSMBuildingLayer.prototype.cache` (lines 118-123): every feature in
array order. -/
def cacheGeoJSON (st : OSMLayerState) (d : FeatureCollection) : OSMLayerState :=
  d.features.foldl cacheFeature st

/-- What the transport collaborator delivers: exactly one of
`success(payload)` or `failure(errorInfo)` (spec §6); the error info is
carried already stringified. -/
inductive AjaxResult (α : Type) : Type where
  | success (payload : α)
  | failure (e : String)

/-- The response callbacks registered by `addByBoundingBox` (lines
247-261).  Success: the converted GeoJSON is cached, then a new
renderable layer is built from it and attached.  Failure: the error
callback only throws (`ArgumentError` with the stringified transport
error); it touches neither cache nor layer list. -/
def addByBoundingBoxResponse (st : OSMLayerState) (r : AjaxResult FeatureCollection) :
    OSMLayerState × Option String :=
  match r with
  | .success d =>
      let cached := cacheGeoJSON st d
      ({ cached with
          renderableLayers := cached.renderableLayers ++ [FeatureCollection.toJS d] }, none)
  | .failure e => (st, some ("Request failed. Error: " ++ e))

/-- The test `data.length == 0` of `addByGeoJSONFile` (line 308): true
for an empty array, an empty string, or an object whose `length` field
is the number `0`; `undefined == 0` is false, so an object without a
`length` field passes. -/
def lengthEqZero (d : JSVal) : Bool :=
  match d with
  | .arr elems => elems.isEmpty
  | .str s => s == ""
  | .obj fields =>
      match lookupField fields "length" with
      | .num q => decide (q = 0)
      | _ => false
  | _ => false

/-- The response callbacks registered by `addByGeoJSONFile` (lines
307-325).  Success with zero-length data throws `"File is empty."`
before building anything; otherwise a renderable layer is built from
the payload and attached (this path performs no caching).  Failure only
throws. -/
def addByGeoJSONFileResponse (st : OSMLayerState) (r : AjaxResult JSVal) :
    OSMLayerState × Option String :=
  match r with
  | .success d =>
      if lengthEqZero d then (st, some "File is empty.")
      else ({ st with renderableLayers := st.renderableLayers ++ [d] }, none)
  | .failure e => (st, some ("Request failed. Error: " ++ e))

/-! ### The GeoJSON renderable builders and the CRS guard -/

/-- The declared coordinate reference system, at the interface the
guard uses: `isCRSSupported()`. -/
structure CRSModel : Type where
  supported : Bool

/-- The state of a GeoJSON loader relevant here: its optional declared
CRS (`this.crs`). -/
structure ParserContext : Type where
  crs : Option CRSModel

/-- The guard `!this.crs || this.crs.isCRSSupported()`. -/
def crsUsable (pc : ParserContext) : Bool :=
  match pc.crs with
  | none => true
  | some c => c.supported

/-- The target `RenderableLayer` argument (only its presence matters to
the embedded code). -/
structure RenderLayerRef : Type where
  name : String

/-- A GeoJSON Polygon geometry: rings of `[longitude, latitude]`
pairs. -/
structure PolygonGeometry : Type where
  coordinates : List (List (ℚ × ℚ))

/-- A GeoJSON MultiPolygon geometry. -/
structure MultiPolygonGeometry : Type where
  coordinates : List (List (List (ℚ × ℚ)))

/-- Modelled from the spec: the renderables the triangulated builders
emit.  `GeoJSONParserTriangulation.js` (the superclass defining
`lateralSurfaces` and `topSurface`) is not part of the provided
sources; per spec §4.2 `lateralSurfaces` contributes the wall meshes
and `topSurface` the cap mesh for the given boundaries, so each call is
recorded as one emitted mesh. -/
inductive MeshEvent : Type where
  | lateral (altitude : JSVal) (boundaries : List (List (ℚ × ℚ)))
  | top (altitude : JSVal) (boundaries : List (List (ℚ × ℚ)))

/-- A position `(latitude, longitude, altitude)` as built by
`GeoJSONParserOSM` from a `[longitude, latitude]` pair.  Reprojection
(`getReprojectedIfRequired`) is an external collaborator (spec §1) and
passes coordinates through unchanged when no reprojection is needed. -/
structure PositionQ : Type where
  latitude : ℚ
  longitude : ℚ
  altitude : JSVal

/-- The shapes `GeoJSONParserOSM` adds to its layer: an extruded
`Polygon` or a flat `SurfacePolygon`. -/
inductive OSMShape : Type where
  | polygon (positions : List PositionQ) (extruded : Bool)
  | surfacePolygon (positions : List PositionQ)

def ringPositions (ring : List (ℚ × ℚ)) (altitude : JSVal) : List PositionQ :=
  ring.map (fun pt => ⟨pt.2, pt.1, altitude⟩)

/-- The per-ring shape construction of `GeoJSONParserOSM` (lines
95-100): extruded `Polygon` when `configuration.extrude` is truthy,
otherwise `SurfacePolygon`. -/
def ringShape (config : Configuration) (ring : List (ℚ × ℚ)) (altitude : JSVal) : OSMShape :=
  if config.extrude then .polygon (ringPositions ring altitude) true
  else .surfacePolygon (ringPositions ring altitude)

/-- `GeoJSONParserTriangulationOSM.prototype.addRenderablesForPolygon`
(lines 63-97): argument checks, altitude resolution (which can throw,
see `setAltitude`), then — only under the CRS guard — lateral surfaces
when extruding plus the top surface.  The configuration argument stands
for the externally supplied `shapeConfigurationCallback` result
(spec §6); the colour side effect of `setColor` is not tracked, as no
renderable depends on it here. -/
def triangulationAddRenderablesForPolygon (pc : ParserContext) (layer : Option RenderLayerRef)
    (geometry : Option PolygonGeometry) (properties : JSVal) (config : Configuration) :
    Except String (List MeshEvent) :=
  match layer with
  | none => .error "missingLayer"
  | some _ =>
      match geometry with
      | none => .error "missingGeometry"
      | some geom =>
          (setAltitude config properties).map (fun altitude =>
            if crsUsable pc then
              (if config.extrude then [MeshEvent.lateral altitude geom.coordinates] else []) ++
                [MeshEvent.top altitude geom.coordinates]
            else [])

/-- `GeoJSONParserTriangulationOSM.prototype.addRenderablesForMultiPolygon`
(lines 112-145): as the Polygon case, iterating the contained
polygons. -/
def triangulationAddRenderablesForMultiPolygon (pc : ParserContext)
    (layer : Option RenderLayerRef) (geometry : Option MultiPolygonGeometry)
    (properties : JSVal) (config : Configuration) : Except String (List MeshEvent) :=
  match layer with
  | none => .error "missingLayer"
  | some _ =>
      match geometry with
      | none => .error "missingGeometry"
      | some geom =>
          (setAltitude config properties).map (fun altitude =>
            if crsUsable pc then
              geom.coordinates.flatMap (fun boundaries =>
                (if config.extrude then [MeshEvent.lateral altitude boundaries] else []) ++
                  [MeshEvent.top altitude boundaries])
            else [])

/-- `GeoJSONParserOSM.prototype.addRenderablesForPolygon` (lines
61-115): argument checks, altitude resolution, then — only under the
CRS guard — one shape per boundary ring added to the layer. -/
def osmAddRenderablesForPolygon (pc : ParserContext) (layer : Option RenderLayerRef)
    (geometry : Option PolygonGeometry) (properties : JSVal) (config : Configuration) :
    Except String (List OSMShape) :=
  match layer with
  | none => .error "missingLayer"
  | some _ =>
      match geometry with
      | none => .error "missingGeometry"
      | some geom =>
          (setAltitude config properties).map (fun altitude =>
            if crsUsable pc then
              geom.coordinates.map (fun ring => ringShape config ring altitude)
            else [])

/-- `GeoJSONParserOSM.prototype.addRenderablesForMultiPolygon` (lines
125-183). -/
def osmAddRenderablesForMultiPolygon (pc : ParserContext) (layer : Option RenderLayerRef)
    (geometry : Option MultiPolygonGeometry) (properties : JSVal) (config : Configuration) :
    Except String (List OSMShape) :=
  match layer with
  | none => .error "missingLayer"
  | some _ =>
      match geometry with
      | none => .error "missingGeometry"
      | some geom =>
          (setAltitude config properties).map (fun altitude =>
            if crsUsable pc then
              geom.coordinates.flatMap (fun boundaries =>
                boundaries.map (fun ring => ringShape config ring altitude))
            else [])

/-- A concrete extruding configuration with altitude type `"osm"`, used
for the specification's worked examples. -/
def exampleOsmConfiguration : Configuration :=
  ⟨true, some ⟨"osm", .num 15⟩, ⟨false, [0, 15, 900]⟩, ⟨1 / 5, 0, 0, 1⟩⟩

/-- A concrete configuration with heatmap colouring enabled and the
default thresholds `[0, 15, 900]`. -/
def exampleHeatConfiguration : Configuration :=
  ⟨true, some ⟨"number", .num 20⟩, ⟨true, [0, 15, 900]⟩, ⟨1 / 5, 0, 0, 1⟩⟩

lemma jsGetT_of_not_truthy {v : JSVal} (h : truthy v = false) (k : String) :
    jsGetT v k = .undefined := by
  cases v <;> simp_all [jsGetT, truthy]

lemma truthy_and_jsGetT (v : JSVal) (k : String) :
    (truthy v && truthy (jsGetT v k)) = truthy (jsGetT v k) := by
  cases hv : truthy v
  · rw [jsGetT_of_not_truthy hv]
    simp [truthy]
  · simp

@[simp] lemma truthy_obj (fields : List (String × JSVal)) : truthy (.obj fields) = true := rfl

lemma osmAltitude_obj (fields : List (String × JSVal)) :
    osmAltitude (.obj fields) = .ok (resolveOsmAltitude (.obj fields)) := by
  simp only [osmAltitude, resolveOsmAltitude, jsGet, Except.map, truthy_obj, Bool.true_and,
    truthy_and_jsGetT]
  by_cases h1 : truthy (jsGetT (JSVal.obj fields) "height") = true <;>
  by_cases h2 : truthy (jsGetT (JSVal.obj fields) "building:levels") = true <;>
  by_cases h3 : truthy (jsGetT (jsGetT (JSVal.obj fields) "tags") "height") = true <;>
  by_cases h4 : truthy (jsGetT (jsGetT (JSVal.obj fields) "tags") "building:levels") = true <;>
  simp [h1, h2, h3, h4]

lemma setAltitude_property_eq (v : JSVal) (hm : HeatmapConfig) (col : JSColor)
    (fields : List (String × JSVal)) :
    setAltitude ⟨true, some ⟨"property", v⟩, hm, col⟩ (.obj fields) =
      if truthy v then
        .ok (if truthy (jsIndexT (.obj fields) v) then jsIndexT (.obj fields) v else .num 15)
      else .ok (.num 15) := rfl

lemma resolveAltitude_property_eq (v : JSVal) (hm : HeatmapConfig) (col : JSColor) (p : JSVal) :
    resolveAltitude ⟨true, some ⟨"property", v⟩, hm, col⟩ p =
      if truthy v && truthy (jsIndexT p v) then jsIndexT p v else .num 15 := rfl

/-- **C1.** For every properties object and every configuration (with
the altitude `type` ranging over the data model's enum `"number"`,
`"osm"`, `"property"`, or no altitude configuration at all),
`BuildingShape.setAltitude` computes exactly the specification's
reference policy `resolveAltitude`; in particular, under an `"osm"`
altitude configuration, properties `{"building:levels": 4}` give `12`,
`{tags: {height: 9}}` give `9`, and `{}` give `15`. -/
theorem setAltitude_matches_reference (e : Bool) (hm : HeatmapConfig) (col : JSColor)
    (v : JSVal) (fields : List (String × JSVal)) :
    (setAltitude ⟨e, none, hm, col⟩ (.obj fields) =
        .ok (resolveAltitude ⟨e, none, hm, col⟩ (.obj fields))) ∧
    (setAltitude ⟨e, some ⟨"number", v⟩, hm, col⟩ (.obj fields) =
        .ok (resolveAltitude ⟨e, some ⟨"number", v⟩, hm, col⟩ (.obj fields))) ∧
    (setAltitude ⟨e, some ⟨"osm", v⟩, hm, col⟩ (.obj fields) =
        .ok (resolveAltitude ⟨e, some ⟨"osm", v⟩, hm, col⟩ (.obj fields))) ∧
    (setAltitude ⟨e, some ⟨"property", v⟩, hm, col⟩ (.obj fields) =
        .ok (resolveAltitude ⟨e, some ⟨"property", v⟩, hm, col⟩ (.obj fields))) ∧
    setAltitude exampleOsmConfiguration (.obj [("building:levels", .num 4)]) = .ok (.num 12) ∧
    setAltitude exampleOsmConfiguration (.obj [("tags", .obj [("height", .num 9)])]) =
      .ok (.num 9) ∧
    setAltitude exampleOsmConfiguration (.obj []) = .ok (.num 15) := by
  refine ⟨?_, ?_, ?_, ?_, ?_, ?_, ?_⟩
  · cases e <;> rfl
  · cases e <;> rfl
  · cases e
    · rfl
    · exact osmAltitude_obj fields
  · cases e
    · rfl
    · rw [setAltitude_property_eq, resolveAltitude_property_eq]
      cases hv : truthy v
      · simp [hv]
      · cases hj : truthy (jsIndexT (.obj fields) v) <;> simp [hv, hj]
  · simp +decide [setAltitude, exampleOsmConfiguration, osmAltitude, jsGet, jsGetT,
      lookupField, truthy, jsMul3, Except.map]
  · simp +decide [setAltitude, exampleOsmConfiguration, osmAltitude, jsGet, jsGetT,
      lookupField, truthy, jsMul3, Except.map]
  · simp +decide [setAltitude, exampleOsmConfiguration, osmAltitude, jsGet, jsGetT,
      lookupField, truthy, jsMul3, Except.map]

/-- **C10.** With `extrude` truthy and an altitude configuration of type
`"osm"`, `BuildingShape.setAltitude` applied to `null` or `undefined`
properties throws a `TypeError` (the third fallback step reads
`this._properties.tags` without the receiver guard the first two steps
have) instead of returning the default `15`. -/
theorem setAltitude_null_properties_type_error (v : JSVal) (hm : HeatmapConfig) (col : JSColor) :
    setAltitude ⟨true, some ⟨"osm", v⟩, hm, col⟩ JSVal.null = .error "TypeError" ∧
    setAltitude ⟨true, some ⟨"osm", v⟩, hm, col⟩ JSVal.undefined = .error "TypeError" :=
  ⟨rfl, rfl⟩

lemma foldl_ite_none {α : Type} (p : ℕ → Prop) [DecidablePred p] (upd : α → ℕ → α) :
    ∀ (l : List ℕ) (a : α), (∀ i ∈ l, ¬ p i) →
      l.foldl (fun c i => if p i then upd c i else c) a = a := by
  intro l
  induction l with
  | nil => intro a _; rfl
  | cons x xs ih =>
      intro a h
      have hx : ¬ p x := h x (List.mem_cons_self x xs)
      simp only [List.foldl_cons, if_neg hx]
      exact ih a (fun i hi => h i (List.mem_cons_of_mem x hi))

lemma foldl_ite_single {α : Type} (p : ℕ → Prop) [DecidablePred p] (upd : α → ℕ → α) :
    ∀ (l : List ℕ) (a : α) (i0 : ℕ), i0 ∈ l → p i0 → (∀ i ∈ l, p i → i = i0) → l.Nodup →
      l.foldl (fun c i => if p i then upd c i else c) a = upd a i0 := by
  intro l
  induction l with
  | nil => intro a i0 h; exact absurd h (List.not_mem_nil i0)
  | cons x xs ih =>
      intro a i0 hmem hp huniq hnd
      rcases List.mem_cons.mp hmem with hx | hx
      · subst hx
        simp only [List.foldl_cons, if_pos hp]
        apply foldl_ite_none
        intro i hi hpi
        have hii : i = i0 := huniq i (List.mem_cons_of_mem _ hi) hpi
        exact (List.nodup_cons.mp hnd).1 (hii ▸ hi)
      · have hxne : ¬ p x := by
          intro hpx
          have hxi : x = i0 := huniq x (List.mem_cons_self x xs) hpx
          exact (List.nodup_cons.mp hnd).1 (hxi ▸ hx)
        simp only [List.foldl_cons, if_neg hxne]
        exact ih a i0 hx hp (fun i hi => huniq i (List.mem_cons_of_mem _ hi))
          (List.nodup_cons.mp hnd).2

lemma getD_lt_getD_of_chain' {l : List ℚ} (h : l.Chain' (· < ·)) {i j : ℕ}
    (hij : i < j) (hj : j < l.length) : l.getD i 0 < l.getD j 0 := by
  have hi : i < l.length := lt_trans hij hj
  rw [List.getD_eq_getElem l 0 hi, List.getD_eq_getElem l 0 hj]
  exact List.pairwise_iff_getElem.mp (List.chain'_iff_pairwise.mp h) i j hi hj hij

/-- **C2.** For a strictly increasing threshold list of length `n ≥ 3`,
`BuildingShape.setColor` with step `0.5 / (n - 2)` modifies only the
red channel of the configuration's interior colour: in the bracket
`thresholds[i] < altitude <= thresholds[i+1]` the new red is
`baseRed + step * i` when `baseRed < 0.5` and `baseRed - step * (n - i)`
otherwise, with green/blue/alpha unchanged; outside every bracket the
colour is returned unchanged. -/
theorem setColor_heatmap_spec (altitude : ℚ) (config : Configuration)
    (hmono : config.heatmap.thresholds.Chain' (· < ·))
    (hn : 3 ≤ config.heatmap.thresholds.length) :
    (∀ i : ℕ, i + 1 < config.heatmap.thresholds.length →
        config.heatmap.thresholds.getD i 0 < altitude →
        altitude ≤ config.heatmap.thresholds.getD (i + 1) 0 →
        setColor altitude config =
          ⟨(if config.interiorColor.red < 1 / 2 then
              config.interiorColor.red +
                1 / 2 / ((config.heatmap.thresholds.length : ℚ) - 2) * (i : ℚ)
            else
              config.interiorColor.red -
                1 / 2 / ((config.heatmap.thresholds.length : ℚ) - 2) *
                  ((config.heatmap.thresholds.length : ℚ) - (i : ℚ))),
            config.interiorColor.green, config.interiorColor.blue,
            config.interiorColor.alpha⟩) ∧
    ((∀ i : ℕ, i + 1 < config.heatmap.thresholds.length →
        ¬(config.heatmap.thresholds.getD i 0 < altitude ∧
            altitude ≤ config.heatmap.thresholds.getD (i + 1) 0)) →
      setColor altitude config = config.interiorColor) := by
  constructor
  · intro i hi hlo hhi
    have huniq : ∀ j ∈ List.range (config.heatmap.thresholds.length - 1),
        (config.heatmap.thresholds.getD j 0 < altitude ∧
          altitude ≤ config.heatmap.thresholds.getD (j + 1) 0) → j = i := by
      rintro j hjmem ⟨hjlo, hjhi⟩
      have hjlt : j < config.heatmap.thresholds.length - 1 := List.mem_range.mp hjmem
      by_contra hne
      rcases Nat.lt_or_ge j i with hlt | hge
      · have h1 : config.heatmap.thresholds.getD (j + 1) 0 ≤
            config.heatmap.thresholds.getD i 0 := by
          rcases Nat.lt_or_eq_of_le (Nat.succ_le_of_lt hlt) with hlt1 | heq1
          · exact le_of_lt (getD_lt_getD_of_chain' hmono hlt1 (by omega))
          · have heq2 : j + 1 = i := heq1
            rw [heq2]
        exact absurd (lt_of_le_of_lt (le_trans hjhi h1) hlo) (lt_irrefl altitude)
      · have hgt : i < j := Nat.lt_of_le_of_ne hge (fun hh => hne hh.symm)
        have h1 : config.heatmap.thresholds.getD (i + 1) 0 ≤
            config.heatmap.thresholds.getD j 0 := by
          rcases Nat.lt_or_eq_of_le (Nat.succ_le_of_lt hgt) with hlt1 | heq1
          · exact le_of_lt (getD_lt_getD_of_chain' hmono hlt1 (by omega))
          · have heq2 : i + 1 = j := heq1
            rw [heq2]
        exact absurd (lt_of_le_of_lt (le_trans hhi h1) hjlo) (lt_irrefl altitude)
    have hmem : i ∈ List.range (config.heatmap.thresholds.length - 1) :=
      List.mem_range.mpr (by omega)
    simp only [setColor]
    by_cases hred : config.interiorColor.red < 1 / 2
    · rw [if_pos hred, if_pos hred]
      exact foldl_ite_single _ _ _ _ i hmem ⟨hlo, hhi⟩ huniq (List.nodup_range _)
    · rw [if_neg hred, if_neg hred]
      exact foldl_ite_single _ _ _ _ i hmem ⟨hlo, hhi⟩ huniq (List.nodup_range _)
  · intro hnone
    have hall : ∀ j ∈ List.range (config.heatmap.thresholds.length - 1),
        ¬(config.heatmap.thresholds.getD j 0 < altitude ∧
            altitude ≤ config.heatmap.thresholds.getD (j + 1) 0) := by
      intro j hj
      exact hnone j (by have := List.mem_range.mp hj; omega)
    simp only [setColor]
    by_cases hred : config.interiorColor.red < 1 / 2
    · rw [if_pos hred]
      exact foldl_ite_none _ _ _ _ hall
    · rw [if_neg hred]
      exact foldl_ite_none _ _ _ _ hall

/-- Witness for `setColor_heatmap_spec`: thresholds `[0, 15, 900]`
(strictly increasing, length 3), base interior colour red `1/5 < 1/2`,
altitude `20` in bracket `i = 1`; the resulting colour is
`(1/5 + (0.5/1) * 1, 0, 0, 1) = (7/10, 0, 0, 1)`. -/
theorem setColor_heatmap_spec_witness :
    exampleHeatConfiguration.heatmap.thresholds.Chain' (· < ·) ∧
    3 ≤ exampleHeatConfiguration.heatmap.thresholds.length ∧
    setColor 20 exampleHeatConfiguration = ⟨7 / 10, 0, 0, 1⟩ := by
  refine ⟨by norm_num [exampleHeatConfiguration, List.chain'_cons], by decide, ?_⟩
  have h := (setColor_heatmap_spec 20 exampleHeatConfiguration
    (by norm_num [exampleHeatConfiguration, List.chain'_cons]) (by decide)).1 1
    (by decide) (by decide) (by decide)
  rw [h]
  norm_num [exampleHeatConfiguration]

/-- **C4.** For every source descriptor that is neither a `boundingBox`
descriptor with exactly 4 coordinates nor a `GeoJSONFile` descriptor
with a path, `OSMBuildingLayer.add` raises an `ArgumentError`-kind
failure and issues no fetch; in particular
`{type: "boundingBox", coordinates: [1,2,3]}` fails with the
invalid-bounding-box error and no fetch request is made. -/
theorem add_invalid_source_fails_before_fetch (src : SourceDescriptor)
    (h1 : isValidBoundingBoxSource src = false)
    (h2 : isValidGeoJSONFileSource src = false) :
    (∃ msg, addEvents src = [LayerEvent.err msg]) ∧
    addEvents { type := "boundingBox", coordinates := some [1, 2, 3], path := none } =
      [LayerEvent.err "The bounding box is invalid."] := by
  constructor
  · unfold addEvents
    by_cases hb : (src.type == "boundingBox" && src.coordinates.isSome) = true
    · rw [if_pos hb]
      have hbt := (Bool.and_eq_true_iff.mp hb).1
      rcases Option.isSome_iff_exists.mp (Bool.and_eq_true_iff.mp hb).2 with ⟨c, hc⟩
      have hlen : c.length ≠ 4 := by
        simp only [isValidBoundingBoxSource, hbt, hc, Bool.true_and, beq_iff_eq] at h1
        simpa using h1
      refine ⟨"The bounding box is invalid.", ?_⟩
      simp only [addByBoundingBoxEvents, hc]
      rw [if_pos hlen]
    · rw [if_neg hb]
      have hg : ¬(src.type == "GeoJSONFile" && pathTruthy src.path) = true := by
        rw [isValidGeoJSONFileSource] at h2
        simp [h2]
      rw [if_neg hg]
      exact ⟨"The source definition of the layer is wrong.", rfl⟩
  · rfl

/-- Witness for `add_invalid_source_fails_before_fetch`: the malformed
descriptor `{type: "boundingBox", coordinates: [1,2,3]}` is neither
valid form and fails with the invalid-bounding-box error. -/
theorem add_invalid_source_fails_before_fetch_witness :
    isValidBoundingBoxSource
        { type := "boundingBox", coordinates := some [1, 2, 3], path := none } = false ∧
    isValidGeoJSONFileSource
        { type := "boundingBox", coordinates := some [1, 2, 3], path := none } = false ∧
    ((∃ msg, addEvents { type := "boundingBox", coordinates := some [1, 2, 3], path := none } =
        [LayerEvent.err msg]) ∧
      addEvents { type := "boundingBox", coordinates := some [1, 2, 3], path := none } =
        [LayerEvent.err "The bounding box is invalid."]) :=
  ⟨by decide, by decide,
    add_invalid_source_fails_before_fetch _ (by decide) (by decide)⟩

/-- **C5.** For every valid `boundingBox` descriptor with coordinates
`[x1, y1, x2, y2]`, `add` issues exactly one fetch whose Overpass
payload is the template
`[out:json][timeout:25];(way[building](y1,x1,y2,x2); relation[building](y1,x1,y2,x2);); out body; >; out skel qt;`
(latitudes before longitudes, minimums before maximums); in particular
coordinates `[10, 50, 10.01, 50.01]` produce a query containing
`(way[building](50,10,50.01,10.01); relation[building](50,10,50.01,10.01);)`. -/
theorem addByBoundingBox_overpass_payload (x1 y1 x2 y2 : ℚ) (p : Option String) :
    addEvents { type := "boundingBox", coordinates := some [x1, y1, x2, y2], path := p } =
      [LayerEvent.fetch overpassUrl
        ("[out:json][timeout:25];(way[building](" ++ num2str y1 ++ "," ++ num2str x1 ++ "," ++
          num2str y2 ++ "," ++ num2str x2 ++ "); relation[building](" ++ num2str y1 ++ "," ++
          num2str x1 ++ "," ++ num2str y2 ++ "," ++ num2str x2 ++
          ");); out body; >; out skel qt;")] ∧
    (∃ a b,
      addEvents
          { type := "boundingBox", coordinates := some [10, 50, 1001 / 100, 5001 / 100],
            path := none } =
        [LayerEvent.fetch overpassUrl
          (a ++ "(way[building](50,10,50.01,10.01); relation[building](50,10,50.01,10.01);)" ++
            b)]) := by
  constructor
  · have h : addEvents { type := "boundingBox", coordinates := some [x1, y1, x2, y2], path := p } =
        [LayerEvent.fetch overpassUrl (overpassQueryData [x1, y1, x2, y2])] := rfl
    rw [h]
    refine congrArg (fun s => [LayerEvent.fetch overpassUrl s]) ?_
    unfold overpassQueryData overpassType overpassTag
    simp only [List.getD_cons_zero, List.getD_cons_succ]
    apply String.ext
    simp [String.data_append, List.append_assoc]
  · refine ⟨"[out:json][timeout:25];", "; out body; >; out skel qt;", ?_⟩
    have h : addEvents
        { type := "boundingBox", coordinates := some [10, 50, 1001 / 100, 5001 / 100],
          path := none } =
      [LayerEvent.fetch overpassUrl (overpassQueryData [10, 50, 1001 / 100, 5001 / 100])] := rfl
    rw [h]
    refine congrArg (fun s => [LayerEvent.fetch overpassUrl s]) ?_
    have h1 : num2str (1001 / 100 : ℚ) = "10.01" := by decide
    have h2 : num2str (5001 / 100 : ℚ) = "50.01" := by decide
    have h3 : num2str (10 : ℚ) = "10" := by decide
    have h4 : num2str (50 : ℚ) = "50" := by decide
    unfold overpassQueryData overpassType overpassTag
    simp only [List.getD_cons_zero, List.getD_cons_succ, h1, h2, h3, h4]
    apply String.ext
    simp [String.data_append, List.append_assoc]

lemma setAltitude_obj_ok (config : Configuration) (fields : List (String × JSVal)) :
    ∃ v, setAltitude config (.obj fields) = .ok v := by
  rcases config with ⟨e, altc, hm, col⟩
  cases altc with
  | none => cases e <;> exact ⟨_, rfl⟩
  | some alt =>
      simp only [setAltitude]
      by_cases h1 : (e && (alt.type == "number")) = true
      · rw [if_pos h1]; exact ⟨_, rfl⟩
      · rw [if_neg h1]
        by_cases h2 : (e && (alt.type == "osm")) = true
        · rw [if_pos h2]; exact ⟨_, osmAltitude_obj fields⟩
        · rw [if_neg h2]
          by_cases h3 : (e && (alt.type == "property")) = true
          · rw [if_pos h3]
            by_cases h4 : truthy alt.value = true
            · rw [if_pos h4]; exact ⟨_, rfl⟩
            · rw [if_neg h4]; exact ⟨_, rfl⟩
          · rw [if_neg h3]
            cases e <;> exact ⟨_, rfl⟩

/-- **C6 (amended).** For every non-null layer, non-null Polygon or
MultiPolygon geometry, properties that are an object, and
configuration, when the declared CRS reports itself unsupported the
renderable builders of both parsers add no renderable and raise no
error: the whole geometry is skipped silently.  (The claim's original
quantification over arbitrary properties fails — see the
counterexample — because altitude resolution runs before the CRS
guard.) -/
theorem unsupported_crs_silent_skip (layer : RenderLayerRef) (pg : PolygonGeometry)
    (mpg : MultiPolygonGeometry) (fields : List (String × JSVal)) (config : Configuration) :
    triangulationAddRenderablesForPolygon ⟨some ⟨false⟩⟩ (some layer) (some pg) (.obj fields)
        config = .ok [] ∧
    triangulationAddRenderablesForMultiPolygon ⟨some ⟨false⟩⟩ (some layer) (some mpg)
        (.obj fields) config = .ok [] ∧
    osmAddRenderablesForPolygon ⟨some ⟨false⟩⟩ (some layer) (some pg) (.obj fields) config =
      .ok [] ∧
    osmAddRenderablesForMultiPolygon ⟨some ⟨false⟩⟩ (some layer) (some mpg) (.obj fields)
        config = .ok [] := by
  obtain ⟨alt, halt⟩ := setAltitude_obj_ok config fields
  refine ⟨?_, ?_, ?_, ?_⟩
  · simp [triangulationAddRenderablesForPolygon, halt, crsUsable, Except.map]
  · simp [triangulationAddRenderablesForMultiPolygon, halt, crsUsable, Except.map]
  · simp [osmAddRenderablesForPolygon, halt, crsUsable, Except.map]
  · simp [osmAddRenderablesForMultiPolygon, halt, crsUsable, Except.map]

/-- **C6 counterexample.** The claim as stated quantifies over *every*
properties value; at `null` properties with an extruding `"osm"`
altitude configuration and an unsupported CRS, the builder raises a
`TypeError` (altitude resolution runs before the CRS guard), so the
geometry is not skipped silently. -/
theorem unsupported_crs_not_always_silent :
    triangulationAddRenderablesForPolygon ⟨some ⟨false⟩⟩ (some ⟨"OSMBuildingLayer"⟩)
        (some ⟨[[(0, 0)]]⟩) JSVal.null exampleOsmConfiguration = .error "TypeError" := rfl

/-- **C7.** For both response handlers, a transport error raises the
`ArgumentError`-kind failure built from the stringified error and does
nothing else: the geometry cache, the properties cache and the
renderable-layer list are exactly as before the request. -/
theorem transport_error_no_mutation (st : OSMLayerState) (e : String) :
    (addByBoundingBoxResponse st (.failure e)).1.geometryCache = st.geometryCache ∧
    (addByBoundingBoxResponse st (.failure e)).1.propertiesCache = st.propertiesCache ∧
    (addByBoundingBoxResponse st (.failure e)).1.renderableLayers = st.renderableLayers ∧
    (addByBoundingBoxResponse st (.failure e)).2 = some ("Request failed. Error: " ++ e) ∧
    (addByGeoJSONFileResponse st (.failure e)).1.geometryCache = st.geometryCache ∧
    (addByGeoJSONFileResponse st (.failure e)).1.propertiesCache = st.propertiesCache ∧
    (addByGeoJSONFileResponse st (.failure e)).1.renderableLayers = st.renderableLayers ∧
    (addByGeoJSONFileResponse st (.failure e)).2 = some ("Request failed. Error: " ++ e) :=
  ⟨rfl, rfl, rfl, rfl, rfl, rfl, rfl, rfl⟩

lemma cacheGeoJSON_entries (fs : List GeoFeature) :
    ∀ st : OSMLayerState,
      ((fs.foldl cacheFeature st).geometryCache.entries =
          st.geometryCache.entries ++
            fs.map (fun f =>
              { key := f.id, value := .obj f.geometry, weight := countOwnFields f.geometry })) ∧
      ((fs.foldl cacheFeature st).propertiesCache.entries =
          st.propertiesCache.entries ++
            fs.map (fun f =>
              { key := f.id, value := .obj f.properties,
                weight := countOwnFields f.properties })) := by
  induction fs with
  | nil => intro st; simp
  | cons f rest ih =>
      intro st
      have h := ih (cacheFeature st f)
      simp only [List.foldl_cons, List.map_cons]
      constructor
      · rw [h.1]
        simp [cacheFeature, MemoryCacheModel.putEntry]
      · rw [h.2]
        simp [cacheFeature, MemoryCacheModel.putEntry]

/-- **C8.** `OSMBuildingLayer.cache` stores, for each feature in array
order, its geometry into the geometry cache and its properties into the
properties cache, both keyed by the feature's id and weighted by the
number of own fields of the stored object; the geometry cache is
constructed with capacity 30000 and low-water mark 24000, the
properties cache with 50000 and 40000. -/
theorem cache_features_spec (st : OSMLayerState) (d : FeatureCollection) :
    ((cacheGeoJSON st d).geometryCache.entries =
        st.geometryCache.entries ++
          d.features.map (fun f =>
            { key := f.id, value := .obj f.geometry, weight := countOwnFields f.geometry })) ∧
    ((cacheGeoJSON st d).propertiesCache.entries =
        st.propertiesCache.entries ++
          d.features.map (fun f =>
            { key := f.id, value := .obj f.properties,
              weight := countOwnFields f.properties })) ∧
    initialLayerState.geometryCache.capacity = 30000 ∧
    initialLayerState.geometryCache.lowWater = 24000 ∧
    initialLayerState.propertiesCache.capacity = 50000 ∧
    initialLayerState.propertiesCache.lowWater = 40000 :=
  ⟨(cacheGeoJSON_entries d.features st).1, (cacheGeoJSON_entries d.features st).2,
    rfl, rfl, rfl, rfl⟩

/-- **C9.** When the file fetch succeeds but delivers zero-length data,
`addByGeoJSONFile` raises the empty-payload `ArgumentError`-kind
failure and neither adds a layer nor any shape: the state is returned
unchanged. -/
theorem empty_payload_spec (st : OSMLayerState) (d : JSVal) (h : lengthEqZero d = true) :
    addByGeoJSONFileResponse st (.success d) = (st, some "File is empty.") := by
  simp [addByGeoJSONFileResponse, h]

/-- Witness for `empty_payload_spec`: an empty JSON array is
zero-length data and produces exactly the empty-payload failure with an
untouched state. -/
theorem empty_payload_spec_witness :
    lengthEqZero (.arr []) = true ∧
    addByGeoJSONFileResponse initialLayerState (.success (.arr [])) =
      (initialLayerState, some "File is empty.") :=
  ⟨rfl, empty_payload_spec initialLayerState (.arr []) rfl⟩

lemma toFixed5_eq_self {q : ℚ} (h : onGrid q) : toFixed5 q = q := h

lemma onGrid_iff {q : ℚ} : onGrid q ↔ ∃ k : ℤ, q = (k : ℚ) / 100000 := by
  constructor
  · intro h
    exact ⟨round (q * 100000), h.symm⟩
  · rintro ⟨k, rfl⟩
    show toFixed5 _ = _
    unfold toFixed5
    have hmul : (k : ℚ) / 100000 * 100000 = (k : ℚ) := by field_simp
    rw [hmul, round_intCast]

lemma onGrid_sub {a b : ℚ} (ha : onGrid a) (hb : onGrid b) : onGrid (a - b) := by
  rcases onGrid_iff.mp ha with ⟨m, rfl⟩
  rcases onGrid_iff.mp hb with ⟨n, rfl⟩
  refine onGrid_iff.mpr ⟨m - n, ?_⟩
  push_cast
  ring

lemma onGrid_add_mulNat {a : ℚ} (ha : onGrid a) (n : ℕ) : onGrid (a + sectorSize * n) := by
  rcases onGrid_iff.mp ha with ⟨m, rfl⟩
  refine onGrid_iff.mpr ⟨m + 1000 * n, ?_⟩
  rw [sectorSize]
  push_cast
  ring

lemma onGrid_add_mulNat1 {a : ℚ} (ha : onGrid a) (n : ℕ) :
    toFixed5 (a + sectorSize * ((n : ℚ) + 1)) = a + sectorSize * ((n : ℚ) + 1) := by
  have h : ((n : ℚ) + 1) = ((n + 1 : ℕ) : ℚ) := by push_cast; ring
  rw [h]
  exact onGrid_add_mulNat ha (n + 1)

lemma sectorAt_eq_of_onGrid (bb : BoundingBoxQ) (hx1 : onGrid bb.x1) (hy1 : onGrid bb.y1)
    (hx2 : onGrid bb.x2) (hy2 : onGrid bb.y2) (iy ix : ℕ) :
    sectorAt bb iy ix =
      { minLatitude := bb.y1 + sectorSize * iy
        maxLatitude := if iy + 1 = sectorsOnYCount bb then bb.y2
          else bb.y1 + sectorSize * (iy + 1)
        minLongitude := bb.x1 + sectorSize * ix
        maxLongitude := if ix + 1 = sectorsOnXCount bb then bb.x2
          else bb.x1 + sectorSize * (ix + 1) } := by
  unfold sectorAt
  rw [toFixed5_eq_self (onGrid_add_mulNat hx1 ix), toFixed5_eq_self (onGrid_add_mulNat hy1 iy),
    toFixed5_eq_self hx2, toFixed5_eq_self hy2, onGrid_add_mulNat1 hx1 ix,
    onGrid_add_mulNat1 hy1 iy]

lemma sectorsCount_bounds {a b : ℚ} {c : ℕ} (hab : a < b) (hg : onGrid (b - a))
    (hc : c = (⌈toFixed5 (b - a) / sectorSize⌉).toNat) :
    (b - a) * 100 ≤ (c : ℚ) ∧ (c : ℚ) - 1 < (b - a) * 100 ∧ 0 < c := by
  have hz : toFixed5 (b - a) / sectorSize = (b - a) * 100 := by
    rw [toFixed5_eq_self hg, sectorSize, div_div_eq_mul_div, div_one]
  rw [hz] at hc
  have hpos : (0 : ℚ) < (b - a) * 100 := by nlinarith
  have hcl : (0 : ℤ) ≤ ⌈(b - a) * 100⌉ := Int.ceil_nonneg hpos.le
  have h1 : ((c : ℤ)) = ⌈(b - a) * 100⌉ := by rw [hc]; exact Int.toNat_of_nonneg hcl
  refine ⟨?_, ?_, ?_⟩
  · have h2 := Int.le_ceil ((b - a) * 100)
    rw [← h1] at h2
    exact_mod_cast h2
  · have h2 := Int.ceil_lt_add_one ((b - a) * 100)
    rw [← h1] at h2
    have h3 : ((c : ℤ) : ℚ) < (b - a) * 100 + 1 := h2
    push_cast at h3
    linarith
  · have h3 : 0 < ⌈(b - a) * 100⌉ := Int.ceil_pos.mpr hpos
    omega

lemma oneD_cover {a b t : ℚ} {c : ℕ} (hab : a < b)
    (hle : (b - a) * 100 ≤ (c : ℚ)) (hgt : (c : ℚ) - 1 < (b - a) * 100) (hpos : 0 < c) :
    (∃ i : ℕ, i < c ∧ a + sectorSize * i ≤ t ∧
        t ≤ (if i + 1 = c then b else a + sectorSize * (i + 1))) ↔ (a ≤ t ∧ t ≤ b) := by
  constructor
  · rintro ⟨i, hi, hL, hR⟩
    have h0 : (0 : ℚ) ≤ (i : ℚ) := Nat.cast_nonneg i
    have haL : a ≤ a + sectorSize * i := by rw [sectorSize]; nlinarith
    refine ⟨le_trans haL hL, ?_⟩
    by_cases hic : i + 1 = c
    · rw [if_pos hic] at hR; exact hR
    · rw [if_neg hic] at hR
      have hnat : i + 2 ≤ c := by omega
      have hi1 : (i : ℚ) + 2 ≤ (c : ℚ) := by exact_mod_cast hnat
      rw [sectorSize] at hR
      push_cast at hR
      linarith
  · rintro ⟨hL, hR⟩
    have hta : (0 : ℚ) ≤ (t - a) * 100 := by nlinarith
    have hfl0 : (0 : ℤ) ≤ ⌊(t - a) * 100⌋ := Int.floor_nonneg.mpr hta
    set k : ℕ := (⌊(t - a) * 100⌋).toNat with hk
    have hkq : ((k : ℤ)) = ⌊(t - a) * 100⌋ := by rw [hk]; exact Int.toNat_of_nonneg hfl0
    have hkle : ((k : ℚ)) ≤ (t - a) * 100 := by
      have h2 := Int.floor_le ((t - a) * 100)
      rw [← hkq] at h2
      exact_mod_cast h2
    have hklt : (t - a) * 100 < (k : ℚ) + 1 := by
      have h2 := Int.lt_floor_add_one ((t - a) * 100)
      rw [← hkq] at h2
      have h3 : (t - a) * 100 < ((k : ℤ) : ℚ) + 1 := h2
      push_cast at h3
      linarith
    refine ⟨min k (c - 1), by omega, ?_, ?_⟩
    · have hmin : ((min k (c - 1) : ℕ) : ℚ) ≤ (k : ℚ) := by
        exact_mod_cast Nat.min_le_left k (c - 1)
      rw [sectorSize]
      nlinarith
    · by_cases hic : min k (c - 1) + 1 = c
      · rw [if_pos hic]; exact hR
      · rw [if_neg hic]
        have hmk : min k (c - 1) = k := by omega
        rw [hmk, sectorSize]
        push_cast
        linarith
  
lemma oneD_disjoint {a b t : ℚ} {c i j : ℕ} (hij : i < j) (hj : j < c)
    (hiR : t < (if i + 1 = c then b else a + sectorSize * (i + 1)))
    (hjL : a + sectorSize * j < t) : False := by
  have hic : i + 1 ≠ c := by omega
  rw [if_neg hic] at hiR
  have hcast : ((i : ℚ)) + 1 ≤ (j : ℚ) := by exact_mod_cast hij
  rw [sectorSize] at hiR hjL
  push_cast at hiR hjL
  nlinarith

lemma grid_length {α : Type} (f : ℕ → ℕ → α) (cy cx : ℕ) :
    ((List.range cy).flatMap fun iy => (List.range cx).map (f iy)).length = cy * cx := by
  induction cy with
  | zero => simp
  | succ n ih =>
      rw [List.range_succ, List.flatMap_append]
      simp [ih, Nat.succ_mul]

lemma grid_getElemOpt {α : Type} (f : ℕ → ℕ → α) (cy cx iy ix : ℕ)
    (hy : iy < cy) (hx : ix < cx) :
    ((List.range cy).flatMap fun iy => (List.range cx).map (f iy))[iy * cx + ix]? =
      some (f iy ix) := by
  induction cy with
  | zero => omega
  | succ n ih =>
      rw [List.range_succ, List.flatMap_append]
      rcases Nat.lt_or_ge iy n with h | h
      · rw [List.getElem?_append_left]
        · exact ih h
        · rw [grid_length]
          have h2 : iy * cx + cx ≤ n * cx := by
            calc iy * cx + cx = (iy + 1) * cx := by ring
              _ ≤ n * cx := Nat.mul_le_mul_right cx (Nat.succ_le_of_lt h)
          omega
      · have hiy : iy = n := by omega
        rw [List.getElem?_append_right (by rw [grid_length, hiy]; omega)]
        rw [grid_length, hiy]
        simp only [List.flatMap_cons, List.flatMap_nil, List.append_nil]
        have hidx : n * cx + ix - n * cx = ix := by omega
        rw [hidx, List.getElem?_map, List.getElem?_range hx]
        rfl

lemma mem_createSectors {bb : BoundingBoxQ} {s : SectorQ} :
    s ∈ createSectors bb ↔
      ∃ iy, iy < sectorsOnYCount bb ∧ ∃ ix, ix < sectorsOnXCount bb ∧ s = sectorAt bb iy ix := by
  unfold createSectors
  simp only [List.mem_flatMap, List.mem_map, List.mem_range]
  constructor
  · rintro ⟨iy, hiy, ix, hix, rfl⟩
    exact ⟨iy, hiy, ix, hix, rfl⟩
  · rintro ⟨iy, hiy, ix, hix, rfl⟩
    exact ⟨iy, hiy, ix, hix, rfl⟩

lemma pairwise_grid {α : Type} {R : α → α → Prop} (f : ℕ → ℕ → α) (cy cx : ℕ)
    (h : ∀ iy ix jy jx, iy < cy → ix < cx → jy < cy → jx < cx →
        ¬(iy = jy ∧ ix = jx) → R (f iy ix) (f jy jx)) :
    ((List.range cy).flatMap fun iy => (List.range cx).map (f iy)).Pairwise R := by
  induction cy with
  | zero => simp
  | succ n ih =>
      rw [List.range_succ, List.flatMap_append]
      rw [List.pairwise_append]
      refine ⟨ih (fun iy ix jy jx hy hx hjy hjx hne =>
          h iy ix jy jx (Nat.lt_succ_of_lt hy) hx (Nat.lt_succ_of_lt hjy) hjx hne), ?_, ?_⟩
      · simp only [List.flatMap_cons, List.flatMap_nil, List.append_nil]
        rw [List.pairwise_map, List.pairwise_iff_getElem]
        intro i j hi hj hij
        rw [List.length_range] at hi hj
        simp only [List.getElem_range]
        exact h n i n j (Nat.lt_succ_self n) hi (Nat.lt_succ_self n) hj
          (fun hc => Nat.ne_of_lt hij hc.2)
      · intro s hs t ht
        simp only [List.flatMap_cons, List.flatMap_nil, List.append_nil, List.mem_map,
          List.mem_range] at ht
        rcases ht with ⟨jx, hjx, rfl⟩
        rcases List.mem_flatMap.mp hs with ⟨iy, hiy, hsmem⟩
        rw [List.mem_range] at hiy
        rcases List.mem_map.mp hsmem with ⟨ix, hix, rfl⟩
        rw [List.mem_range] at hix
        exact h iy ix n jx (Nat.lt_succ_of_lt hiy) hix (Nat.lt_succ_self n) hjx
          (fun hc => Nat.ne_of_lt hiy hc.1)

lemma coversExactly_of_grid (bb : BoundingBoxQ) (hx1 : onGrid bb.x1) (hy1 : onGrid bb.y1)
    (hx2 : onGrid bb.x2) (hy2 : onGrid bb.y2) (hx : bb.x1 < bb.x2) (hy : bb.y1 < bb.y2) :
    coversExactly bb := by
  have hxb := sectorsCount_bounds (c := sectorsOnXCount bb) hx (onGrid_sub hx2 hx1) rfl
  have hyb := sectorsCount_bounds (c := sectorsOnYCount bb) hy (onGrid_sub hy2 hy1) rfl
  intro p
  constructor
  · rintro ⟨s, hs, hP⟩
    rcases mem_createSectors.mp hs with ⟨iy, hiy, ix, hix, rfl⟩
    rw [sectorAt_eq_of_onGrid bb hx1 hy1 hx2 hy2] at hP
    obtain ⟨h1, h2, h3, h4⟩ := hP
    have hxc := (oneD_cover hx hxb.1 hxb.2.1 hxb.2.2).mp ⟨ix, hix, h1, h2⟩
    have hyc := (oneD_cover hy hyb.1 hyb.2.1 hyb.2.2).mp ⟨iy, hiy, h3, h4⟩
    exact ⟨hxc.1, hxc.2, hyc.1, hyc.2⟩
  · rintro ⟨hbx1, hbx2, hby1, hby2⟩
    obtain ⟨ix, hix, hxL, hxR⟩ := (oneD_cover hx hxb.1 hxb.2.1 hxb.2.2).mpr ⟨hbx1, hbx2⟩
    obtain ⟨iy, hiy, hyL, hyR⟩ := (oneD_cover hy hyb.1 hyb.2.1 hyb.2.2).mpr ⟨hby1, hby2⟩
    refine ⟨sectorAt bb iy ix, mem_createSectors.mpr ⟨iy, hiy, ix, hix, rfl⟩, ?_⟩
    rw [sectorAt_eq_of_onGrid bb hx1 hy1 hx2 hy2]
    exact ⟨hxL, hxR, hyL, hyR⟩

lemma noOverlap_of_grid (bb : BoundingBoxQ) (hx1 : onGrid bb.x1) (hy1 : onGrid bb.y1)
    (hx2 : onGrid bb.x2) (hy2 : onGrid bb.y2) : noOverlap bb := by
  unfold noOverlap createSectors
  apply pairwise_grid
  intro iy ix jy jx hiy hix hjy hjx hne p hp
  obtain ⟨hint1, hint2⟩ := hp
  rw [sectorAt_eq_of_onGrid bb hx1 hy1 hx2 hy2] at hint1 hint2
  obtain ⟨a1, a2, a3, a4⟩ := hint1
  obtain ⟨b1, b2, b3, b4⟩ := hint2
  rcases Nat.lt_trichotomy ix jx with hxx | hxx | hxx
  · exact oneD_disjoint hxx hjx a2 b1
  · rcases Nat.lt_trichotomy iy jy with hyy | hyy | hyy
    · exact oneD_disjoint hyy hjy a4 b3
    · exact hne ⟨hyy, hxx⟩
    · exact oneD_disjoint hyy hiy b4 a3
  · exact oneD_disjoint hxx hix b2 a1

/-- **C3 (amended).** For every bounding box whose four coordinates
have at most five decimal places (so that `toFixed(5)` is exact) and
which is non-degenerate (`x1 < x2`, `y1 < y2`), `createSectors` returns
the row-major grid (Y outer, X inner: entry `iy * cx + ix` is the
sector of row `iy` and column `ix`), the last column and row are
clipped to the exact box edge, the sectors pairwise do not overlap
(no point interior to two of them), and their union reconstructs the
box exactly; the box `[0, 0, 0.025, 0.01]` yields sectors with X-edges
`[0, 0.01, 0.02, 0.025]`.  (The claim's original quantification over
every bounding box fails on off-grid coordinates — see the
counterexample.) -/
theorem createSectors_grid_spec (bb : BoundingBoxQ)
    (hx1 : onGrid bb.x1) (hy1 : onGrid bb.y1) (hx2 : onGrid bb.x2) (hy2 : onGrid bb.y2)
    (hx : bb.x1 < bb.x2) (hy : bb.y1 < bb.y2) :
    (createSectors bb).length = sectorsOnYCount bb * sectorsOnXCount bb ∧
    (∀ iy ix, iy < sectorsOnYCount bb → ix < sectorsOnXCount bb →
        (createSectors bb)[iy * sectorsOnXCount bb + ix]? = some (sectorAt bb iy ix)) ∧
    (∀ iy ix, iy < sectorsOnYCount bb → ix + 1 = sectorsOnXCount bb →
        (sectorAt bb iy ix).maxLongitude = bb.x2) ∧
    (∀ iy ix, iy + 1 = sectorsOnYCount bb → ix < sectorsOnXCount bb →
        (sectorAt bb iy ix).maxLatitude = bb.y2) ∧
    noOverlap bb ∧ coversExactly bb ∧
    (createSectors ⟨0, 0, 1 / 40, 1 / 100⟩).map (fun s => (s.minLongitude, s.maxLongitude)) =
      [(0, 1 / 100), (1 / 100, 1 / 50), (1 / 50, 1 / 40)] := by
  refine ⟨grid_length (fun iy ix => sectorAt bb iy ix) (sectorsOnYCount bb) (sectorsOnXCount bb),
    ?_, ?_, ?_, noOverlap_of_grid bb hx1 hy1 hx2 hy2,
    coversExactly_of_grid bb hx1 hy1 hx2 hy2 hx hy, by decide⟩
  · intro iy ix hiy hix
    exact grid_getElemOpt (fun iy ix => sectorAt bb iy ix) _ _ _ _ hiy hix
  · intro iy ix hiy hix1
    rw [sectorAt_eq_of_onGrid bb hx1 hy1 hx2 hy2]
    exact if_pos hix1
  · intro iy ix hiy1 hix
    rw [sectorAt_eq_of_onGrid bb hx1 hy1 hx2 hy2]
    exact if_pos hiy1

/-- **C3 counterexample.** The claim as stated quantifies over *every*
bounding box, but every sector edge goes through `toFixed(5)`: for the
box `[0.000001, 0, 0.010001, 0.01]` the single produced sector is
`[0, 0.01] x [0, 0.01]`, so the point `(0, 0)` lies in the union of the
sectors but not in the box — the union does not reconstruct the box
exactly. -/
theorem createSectors_offgrid_counterexample :
    ¬ coversExactly ⟨1 / 1000000, 0, 10001 / 1000000, 1 / 100⟩ := fun h =>
  absurd ((h (0, 0)).mp (by decide)) (by decide)

/-- Witness for `createSectors_grid_spec` at the box
`[0, 0, 0.025, 0.01]` (all coordinates on the 5-decimal grid,
non-degenerate): its sectors pairwise do not overlap and cover the box
exactly. -/
theorem createSectors_grid_spec_witness :
    onGrid (0 : ℚ) ∧ onGrid (1 / 40 : ℚ) ∧ onGrid (1 / 100 : ℚ) ∧ (0 : ℚ) < 1 / 40 ∧
    (noOverlap ⟨0, 0, 1 / 40, 1 / 100⟩ ∧ coversExactly ⟨0, 0, 1 / 40, 1 / 100⟩) := by
  have h := createSectors_grid_spec ⟨0, 0, 1 / 40, 1 / 100⟩ (by decide) (by decide) (by decide)
    (by decide) (by decide) (by decide)
  exact ⟨by decide, by decide, by decide, by decide, h.2.2.2.2.1, h.2.2.2.2.2.1⟩
